import Mathlib

/-!
Shallow embedding of `src/testangel-ipc/demo_c_engine.c` (the demo TestAngel
engine plugin) and proofs about its ABI behaviour.

Modelling conventions:
* The shared header `testangel.h` is not in the repository; its enumerations and
  struct shapes are modelled from the spec's data model (§3, §6).
* C strings are Lean `String`s; a nullable string is `Option String` with
  `none` for `NULL`.
* Sentinel-terminated arrays of pointers are `List (Option α)`: the C code
  writes `some` elements followed by the `none` sentinel, exactly as the
  mallocs and element stores in the source do.
* The process-wide logger function pointer starts out `NULL`; every entry
  point invokes it unconditionally.  We track only whether a logger has been
  registered (`bLoggerRegistered : Bool`); an entry point that would call the
  `NULL` function pointer returns `none` (undefined behaviour / crash), and
  `some r` when it runs to completion with observable outcome `r`.
* `int32_t` payloads are `Int`; machine addition of two 32-bit values is
  `wrap32 (a + b)` (two's-complement wrap-around).
* The C `(array, count)` pair passed to `ta_execute` is a single Lean list;
  the loop `for (i = 0; i < nParameterCount; i++)` visits exactly its
  elements in order.
-/

/-- Modelled from the spec: parameter kinds from the missing `testangel.h`
(§3, §6: `INTEGER` plus decimal / boolean / string slots). -/
inductive TaParameterKind
  | integer
  | decimal
  | boolean
  | text
  deriving DecidableEq, Repr

/-- Modelled from the spec: result codes from the missing `testangel.h`
(§3: `OK` and the error taxonomy). -/
inductive TaResultCode
  | ok
  | errorInvalidInstruction
  | errorInvalidParameter
  | errorMissingParameter
  | errorInvalidParameterType
  deriving DecidableEq, Repr

/-- `ta_result`: status code plus optional (nullable) diagnostic string. -/
structure TaResult where
  code : TaResultCode
  szReason : Option String
  deriving DecidableEq, Repr

/-- `ta_value`: a tagged payload.  The C payload is a union of boxed scalars;
the demo only ever reads `value.iValue`, so the payload cell is kept as the
integer it would hold. -/
structure TaValue where
  kind : TaParameterKind
  iValue : Int
  deriving DecidableEq, Repr

/-- `ta_named_value`: a `(name, value)` pair. -/
structure TaNamedValue where
  szName : String
  value : TaValue
  deriving DecidableEq, Repr

/-- Modelled from the spec: evidence kinds from the missing `testangel.h`
(§3: at minimum `TEXTUAL`). -/
inductive TaEvidenceKind
  | textual
  deriving DecidableEq, Repr

/-- `ta_evidence`: a `(label, kind, value)` triple; for `TEXTUAL` the value is
a string. -/
structure TaEvidence where
  szLabel : String
  kind : TaEvidenceKind
  value : String
  deriving DecidableEq, Repr

/-- `ta_engine_metadata`. -/
structure TaEngineMetadata where
  iSupportsIpcVersion : Nat
  szFriendlyName : String
  szLuaName : String
  szVersion : String
  szDescription : String
  deriving DecidableEq, Repr

/-- Modelled from the spec: the instruction flag bitfield of the missing
`testangel.h`, as the set of the three flags the demo uses (§3:
`{PURE, AUTOMATIC, INFALLIBLE}`). -/
structure TaInstructionFlags where
  bPure : Bool
  bAutomatic : Bool
  bInfallible : Bool
  deriving DecidableEq, Repr

/-- `ta_instruction_named_kind`: a parameter / output descriptor
`(id, name, kind)`. -/
structure TaInstructionNamedKind where
  szId : String
  szName : String
  kind : TaParameterKind
  deriving DecidableEq, Repr

/-- `ta_instruction_metadata`.  The two descriptor lists are
sentinel-terminated pointer arrays. -/
structure TaInstructionMetadata where
  szId : String
  szLuaName : String
  szFriendlyName : String
  szDescription : String
  iFlags : TaInstructionFlags
  arpParameterList : List (Option TaInstructionNamedKind)
  arpOutputList : List (Option TaInstructionNamedKind)
  deriving DecidableEq, Repr

/-- Two's-complement wrap-around of an integer into the `int32_t` range,
modelling the machine addition `paramA + paramB` of the source. -/
def wrap32 (n : Int) : Int :=
  (n + 2 ^ 31) % 2 ^ 32 - 2 ^ 31

/-- A sentinel-terminated pointer array: some non-null elements followed by
exactly one null sentinel, with no null element before it. -/
def nullTerminated {α : Type} : List (Option α) → Bool
  | [] => false
  | [none] => true
  | some _ :: rest => nullTerminated rest
  | none :: _ :: _ => false

/-- The instruction metadata `ta_request_instructions` builds for `demo-add`
(lines 37–68 of the source). -/
def demoAddMetadata : TaInstructionMetadata :=
  { szId := "demo-add"
    szLuaName := "Add"
    szFriendlyName := "Add"
    szDescription := "Add together two numbers"
    iFlags := { bPure := true, bAutomatic := true, bInfallible := true }
    arpParameterList :=
      [some { szId := "a", szName := "A", kind := .integer },
       some { szId := "b", szName := "B", kind := .integer },
       none]
    arpOutputList :=
      [some { szId := "result", szName := "Result", kind := .integer },
       none] }

/-- The engine metadata `ta_request_instructions` writes (lines 31–35). -/
def demoEngineMetadata : TaEngineMetadata :=
  { iSupportsIpcVersion := 3
    szFriendlyName := "Demo C Engine"
    szLuaName := "DemoC"
    szVersion := "0.0.0"
    szDescription := "An example of an engine implemented in C" }

/-- `ta_request_instructions`: logs (crashing when no logger is registered),
then fills the engine metadata, the one-element sentinel-terminated
instruction array, and returns an `OK` result with `NULL` reason. -/
def ta_request_instructions (bLoggerRegistered : Bool) :
    Option (TaResult × TaEngineMetadata × List (Option TaInstructionMetadata)) :=
  if !bLoggerRegistered then none
  else
    some ({ code := .ok, szReason := none },
          demoEngineMetadata,
          [some demoAddMetadata, none])

/-- The parameter-scanning loop of `ta_execute` (lines 110–136).  State is
`(paramA, paramB, paramASupplied, paramBSupplied)`; an offending parameter
aborts the loop with the heap-allocated error result the source builds. -/
def scanParams :
    List TaNamedValue → Int → Int → Bool → Bool →
    Except TaResult (Int × Int × Bool × Bool)
  | [], paramA, paramB, sa, sb => .ok (paramA, paramB, sa, sb)
  | p :: rest, paramA, paramB, sa, sb =>
    if p.szName = "a" then
      if p.value.kind ≠ .integer then
        .error { code := .errorInvalidParameterType,
                 szReason := some "Parameter A must be an integer!" }
      else
        scanParams rest p.value.iValue paramB true sb
    else if p.szName = "b" then
      if p.value.kind ≠ .integer then
        .error { code := .errorInvalidParameterType,
                 szReason := some "Parameter B must be an integer!" }
      else
        scanParams rest paramA p.value.iValue sa true
    else
      .error { code := .errorInvalidParameter,
               szReason := some "One of the supplied parameters was unexpected!" }

/-- The evidence text `snprintf(buf, 255, "%d + %d = %d", paramA, paramB,
*pOutputResult)` renders: the decimal forms joined by " + " and " = ". -/
def sumEvidenceText (paramA paramB sum : Int) : String :=
  toString paramA ++ " + " ++ toString paramB ++ " = " ++ toString sum

/-- The observable outcome of one `ta_execute` call: the returned result and
the two out-parameters, `none` when the call returned without writing them. -/
structure ExecOut where
  result : TaResult
  outputs : Option (List (Option TaNamedValue))
  evidence : Option (List (Option TaEvidence))
  deriving DecidableEq, Repr

/-- `ta_execute` (lines 84–193).  Logs on entry (crashing when no logger is
registered); rejects an unknown instruction id; scans the parameters; reports
a missing `a` then a missing `b`; otherwise computes the 32-bit sum, writes
the sentinel-terminated evidence and output arrays, and returns `OK`.
`bDryRun` is explicitly ignored by the source (`(void)(bDryRun)`). -/
def ta_execute (bLoggerRegistered : Bool) (szInstructionId : String)
    (arpParameterList : List TaNamedValue) (bDryRun : Bool) : Option ExecOut :=
  if !bLoggerRegistered then none
  else if szInstructionId ≠ "demo-add" then
    some { result := { code := .errorInvalidInstruction,
                       szReason := some "This engine only supports `demo-add`." }
           outputs := none, evidence := none }
  else
    match scanParams arpParameterList 0 0 false false with
    | .error r => some { result := r, outputs := none, evidence := none }
    | .ok (paramA, paramB, paramASupplied, paramBSupplied) =>
      if !paramASupplied then
        some { result := { code := .errorMissingParameter,
                           szReason := some "Parameter `a` was not supplied" }
               outputs := none, evidence := none }
      else if !paramBSupplied then
        some { result := { code := .errorMissingParameter,
                           szReason := some "Parameter `b` was not supplied" }
               outputs := none, evidence := none }
      else
        let sum := wrap32 (paramA + paramB)
        some { result := { code := .ok, szReason := none }
               outputs :=
                 some [some { szName := "result",
                              value := { kind := .integer, iValue := sum } },
                       none]
               evidence :=
                 some [some { szLabel := "Sum", kind := .textual,
                              value := sumEvidenceText paramA paramB sum },
                       none] }

/-- `ta_reset_state` (lines 198–205): logs, then returns `OK` with `NULL`
reason. -/
def ta_reset_state (bLoggerRegistered : Bool) : Option TaResult :=
  if !bLoggerRegistered then none
  else some { code := .ok, szReason := none }

/-- `ta_free_result` (lines 210–217): logs, then frees.  Freeing has no
observable outcome in the embedding beyond completing. -/
def ta_free_result (bLoggerRegistered : Bool) (_pTarget : TaResult) :
    Option Unit :=
  if !bLoggerRegistered then none else some ()

/-- `ta_free_engine_metadata` (lines 222–227): logs, then does nothing. -/
def ta_free_engine_metadata (bLoggerRegistered : Bool)
    (_pTarget : TaEngineMetadata) : Option Unit :=
  if !bLoggerRegistered then none else some ()

/-- `ta_free_instruction_metadata_array` (lines 232–262): logs, then walks
the array freeing each element. -/
def ta_free_instruction_metadata_array (bLoggerRegistered : Bool)
    (_arpTarget : List (Option TaInstructionMetadata)) : Option Unit :=
  if !bLoggerRegistered then none else some ()

/-- `ta_free_named_value_array` (lines 267–284): logs, then walks the array
freeing each element. -/
def ta_free_named_value_array (bLoggerRegistered : Bool)
    (_arpTarget : List (Option TaNamedValue)) : Option Unit :=
  if !bLoggerRegistered then none else some ()

/-- `ta_free_evidence_array` (lines 289–305): logs, then walks the array
freeing each element. -/
def ta_free_evidence_array (bLoggerRegistered : Bool)
    (_arpTarget : List (Option TaEvidence)) : Option Unit :=
  if !bLoggerRegistered then none else some ()

/-- A parameter the scanning loop rejects: either its name is neither "a" nor
"b", or it is one of the two but its kind is not `INTEGER`. -/
def badParam (p : TaNamedValue) : Bool :=
  if p.szName = "a" ∨ p.szName = "b" then !(p.value.kind == TaParameterKind.integer)
  else true

/-- The error result the scanning loop returns for the first offending
parameter. -/
def firstPassError (p : TaNamedValue) : TaResult :=
  if p.szName = "a" then
    { code := .errorInvalidParameterType,
      szReason := some "Parameter A must be an integer!" }
  else if p.szName = "b" then
    { code := .errorInvalidParameterType,
      szReason := some "Parameter B must be an integer!" }
  else
    { code := .errorInvalidParameter,
      szReason := some "One of the supplied parameters was unexpected!" }

/-- The payload of the last parameter named `nm`, starting from default
`acc` — the value the loop's repeated assignments leave behind. -/
def lastPayload (nm : String) : List TaNamedValue → Int → Int
  | [], acc => acc
  | p :: rest, acc =>
    lastPayload nm rest (if p.szName = nm then p.value.iValue else acc)

lemma scanParams_bad (ps : List TaNamedValue) (p : TaNamedValue)
    (h : ps.find? badParam = some p) (a b : Int) (sa sb : Bool) :
    scanParams ps a b sa sb = .error (firstPassError p) := by
  induction ps generalizing a b sa sb with
  | nil => simp at h
  | cons q rest ih =>
    by_cases hq : badParam q = true
    · rw [List.find?_cons_of_pos _ hq] at h
      injection h with h
      subst h
      unfold badParam at hq
      by_cases hn : q.szName = "a" ∨ q.szName = "b"
      · rw [if_pos hn] at hq
        have hk : q.value.kind ≠ .integer := by
          intro hk
          rw [hk] at hq
          simp at hq
        rcases hn with hn | hn <;>
          simp [scanParams, firstPassError, hn, hk]
      · push_neg at hn
        simp [scanParams, firstPassError, hn.1, hn.2]
    · rw [List.find?_cons_of_neg _ hq] at h
      unfold badParam at hq
      by_cases hn : q.szName = "a" ∨ q.szName = "b"
      · rw [if_pos hn] at hq
        have hk : q.value.kind = .integer := by
          by_contra hk
          rcases hq (by simp [beq_iff_eq] ; exact hk)
        rcases hn with hn | hn <;>
          simp [scanParams, hn, hk, ih h]
      · rw [if_neg hn] at hq
        simp at hq

lemma scanParams_clean (ps : List TaNamedValue)
    (h : ps.find? badParam = none) (a b : Int) (sa sb : Bool) :
    scanParams ps a b sa sb =
      .ok (lastPayload "a" ps a, lastPayload "b" ps b,
           sa || ps.any (·.szName == "a"), sb || ps.any (·.szName == "b")) := by
  induction ps generalizing a b sa sb with
  | nil => simp [scanParams, lastPayload]
  | cons q rest ih =>
    rw [List.find?_cons] at h
    cases hq : badParam q with
    | true => rw [hq] at h ; simp at h
    | false =>
      rw [hq] at h
      simp only at h
      unfold badParam at hq
      by_cases hn : q.szName = "a" ∨ q.szName = "b"
      · rw [if_pos hn] at hq
        have hk : q.value.kind = .integer := by
          by_contra hk
          simp [beq_iff_eq, hk] at hq
        rcases hn with hn | hn <;>
          simp [scanParams, hn, hk, ih h, lastPayload, List.any_cons, Bool.or_assoc]
      · rw [if_neg hn] at hq
        simp at hq

lemma scanParams_error_shape (ps : List TaNamedValue) (a b : Int) (sa sb : Bool)
    (r : TaResult) (h : scanParams ps a b sa sb = .error r) :
    r.code ≠ .ok ∧ r.szReason ≠ none := by
  induction ps generalizing a b sa sb with
  | nil => simp [scanParams] at h
  | cons q rest ih =>
    unfold scanParams at h
    by_cases ha : q.szName = "a"
    · rw [if_pos ha] at h
      by_cases hk : q.value.kind ≠ .integer
      · rw [if_pos hk] at h
        injection h with h
        subst h
        exact ⟨by simp, by simp⟩
      · rw [if_neg hk] at h
        exact ih _ _ _ _ h
    · rw [if_neg ha] at h
      by_cases hb : q.szName = "b"
      · rw [if_pos hb] at h
        by_cases hk : q.value.kind ≠ .integer
        · rw [if_pos hk] at h
          injection h with h
          subst h
          exact ⟨by simp, by simp⟩
        · rw [if_neg hk] at h
          exact ih _ _ _ _ h
      · rw [if_neg hb] at h
        injection h with h
        subst h
        exact ⟨by simp, by simp⟩

lemma firstPassError_shape (p : TaNamedValue) :
    (firstPassError p).code ≠ .ok ∧ (firstPassError p).szReason ≠ none := by
  by_cases h1 : p.szName = "a"
  · simp [firstPassError, h1]
  · by_cases h2 : p.szName = "b" <;> simp [firstPassError, h1, h2]

lemma find?_badParam_eq_none (ps : List TaNamedValue)
    (hgood : ∀ p ∈ ps, (p.szName = "a" ∨ p.szName = "b") ∧
      p.value.kind = .integer) :
    ps.find? badParam = none := by
  rw [List.find?_eq_none]
  intro p hp
  rcases hgood p hp with ⟨hn, hk⟩
  unfold badParam
  rw [if_pos hn, hk]
  simp

/-- Every observable outcome of a completed `ta_execute` call satisfies the
result discipline (reason is null iff the code is OK) and, whenever the
output or evidence out-parameter was written, that array is sentinel
terminated. -/
lemma ta_execute_some_shape (bLoggerRegistered : Bool) (szInstructionId : String)
    (ps : List TaNamedValue) (bDryRun : Bool) (o : ExecOut)
    (h : ta_execute bLoggerRegistered szInstructionId ps bDryRun = some o) :
    (o.result.szReason = none ↔ o.result.code = .ok) ∧
    (∀ l, o.outputs = some l → nullTerminated l = true) ∧
    (∀ l, o.evidence = some l → nullTerminated l = true) := by
  cases bLoggerRegistered with
  | false => simp [ta_execute] at h
  | true =>
    rw [ta_execute] at h
    simp only [Bool.not_true, Bool.false_eq_true, if_false] at h
    by_cases hid : szInstructionId ≠ "demo-add"
    · rw [if_pos hid] at h
      injection h with h
      subst h
      exact ⟨by simp, by simp, by simp⟩
    · rw [if_neg hid] at h
      rcases hscan : scanParams ps 0 0 false false with r | ⟨paramA, paramB, sa, sb⟩
      · rw [hscan] at h
        injection h with h
        subst h
        rcases scanParams_error_shape ps 0 0 false false r hscan with ⟨hc, hr⟩
        exact ⟨⟨fun hn => (hr hn).elim, fun hcode => (hc hcode).elim⟩,
               by simp, by simp⟩
      · rw [hscan] at h
        cases sa <;> cases sb <;> simp at h <;> subst h <;>
          simp [nullTerminated]

/-- C1: `ta_execute "demo-add"` on a parameter list supplying exactly one
parameter named "a" and one named "b", both with kind `INTEGER` and no other
parameter (in either order) returns `OK`, writes the output array
`[("result", INTEGER, a+b)]` with the 32-bit sum, and the evidence array
`[("Sum", TEXTUAL, "<a> + <b> = <a+b>")]` with the decimal rendering. -/
theorem C1_demo_add_sums (ps : List TaNamedValue) (a b : Int) (bDryRun : Bool)
    (h : ps = [⟨"a", ⟨.integer, a⟩⟩, ⟨"b", ⟨.integer, b⟩⟩] ∨
         ps = [⟨"b", ⟨.integer, b⟩⟩, ⟨"a", ⟨.integer, a⟩⟩]) :
    ta_execute true "demo-add" ps bDryRun =
      some { result := { code := .ok, szReason := none }
             outputs :=
               some [some ⟨"result", ⟨.integer, wrap32 (a + b)⟩⟩, none]
             evidence :=
               some [some ⟨"Sum", .textual,
                           sumEvidenceText a b (wrap32 (a + b))⟩, none] } := by
  rcases h with h | h <;> subst h <;> simp [ta_execute, scanParams]

/-- C1 witness: inputs 2 and 3 yield output 5 and evidence "2 + 3 = 5". -/
theorem C1_demo_add_sums_witness :
    ta_execute true "demo-add"
      [⟨"a", ⟨.integer, 2⟩⟩, ⟨"b", ⟨.integer, 3⟩⟩] false =
    some { result := { code := .ok, szReason := none }
           outputs := some [some ⟨"result", ⟨.integer, 5⟩⟩, none]
           evidence := some [some ⟨"Sum", .textual, "2 + 3 = 5"⟩, none] } :=
  (C1_demo_add_sums [⟨"a", ⟨.integer, 2⟩⟩, ⟨"b", ⟨.integer, 3⟩⟩] 2 3 false
      (Or.inl rfl)).trans (by decide)

/-- C2: `ta_request_instructions` (with a logger registered, so that the call
completes) returns `OK` and populates exactly the advertised engine metadata
(ipcVersion 3, "Demo C Engine", "DemoC") and the single `demo-add`
instruction with flags PURE, AUTOMATIC, INFALLIBLE, parameters
[("a","A",INTEGER),("b","B",INTEGER)] and outputs [("result","Result",INTEGER)];
being a function of no other input, the value is identical on every call. -/
theorem C2_request_instructions :
    ta_request_instructions true =
      some ({ code := .ok, szReason := none },
            { iSupportsIpcVersion := 3
              szFriendlyName := "Demo C Engine"
              szLuaName := "DemoC"
              szVersion := "0.0.0"
              szDescription := "An example of an engine implemented in C" },
            [some { szId := "demo-add"
                    szLuaName := "Add"
                    szFriendlyName := "Add"
                    szDescription := "Add together two numbers"
                    iFlags := { bPure := true, bAutomatic := true,
                                bInfallible := true }
                    arpParameterList :=
                      [some ⟨"a", "A", .integer⟩,
                       some ⟨"b", "B", .integer⟩, none]
                    arpOutputList :=
                      [some ⟨"result", "Result", .integer⟩, none] },
             none]) := rfl

/-- C3 counterexample: the claim says an unknown parameter name anywhere in
the list forces `ERROR_INVALID_PARAMETER`, but on
[("a", BOOLEAN), ("c", INTEGER 2)] the code reports the wrong kind of "a"
first and returns `ERROR_INVALID_PARAMETER_TYPE`. -/
theorem C3_counterexample :
    (ta_execute true "demo-add"
        [⟨"a", ⟨.boolean, 0⟩⟩, ⟨"c", ⟨.integer, 2⟩⟩] false).map
        (fun o => o.result.code) = some .errorInvalidParameterType ∧
    TaResultCode.errorInvalidParameterType ≠ .errorInvalidParameter := by
  decide

/-- C3 (amended): the single scanning pass reports the error of the FIRST
offending parameter in array order — unknown name gives
`ERROR_INVALID_PARAMETER`, wrong kind for "a"/"b" gives
`ERROR_INVALID_PARAMETER_TYPE` naming that parameter; only after a clean pass
is a missing "a" (then a missing "b") reported as `ERROR_MISSING_PARAMETER`
naming it.  Exactly one error is reported per call, and an unknown name is
still reported in preference to a missing required parameter. -/
theorem C3_first_offending_parameter (ps : List TaNamedValue) (bDryRun : Bool) :
    (ta_execute true "demo-add" ps bDryRun).map (fun o => o.result) =
      some (match ps.find? badParam with
        | some p => firstPassError p
        | none =>
          if ps.any (fun p => p.szName == "a") = false then
            { code := .errorMissingParameter,
              szReason := some "Parameter `a` was not supplied" }
          else if ps.any (fun p => p.szName == "b") = false then
            { code := .errorMissingParameter,
              szReason := some "Parameter `b` was not supplied" }
          else { code := .ok, szReason := none }) := by
  cases hf : ps.find? badParam with
  | some p =>
    simp [ta_execute, scanParams_bad ps p hf]
  | none =>
    cases ha : ps.any (fun p => p.szName == "a") with
    | false => simp [ta_execute, scanParams_clean ps hf, ha]
    | true =>
      cases hb : ps.any (fun p => p.szName == "b") with
      | false => simp [ta_execute, scanParams_clean ps hf, ha, hb]
      | true => simp [ta_execute, scanParams_clean ps hf, ha, hb]

/-- C4: the claim says every entry point completes without dereferencing the
logger when none is registered, but the code calls the stored `NULL`
function pointer unconditionally; with no logger registered every entry
point crashes (`none` in the embedding) instead of completing. -/
theorem C4_unregistered_logger_crashes :
    ta_request_instructions false = none ∧
    (∀ (id : String) (ps : List TaNamedValue) (dry : Bool),
        ta_execute false id ps dry = none) ∧
    ta_reset_state false = none ∧
    (∀ r : TaResult, ta_free_result false r = none) ∧
    (∀ m : TaEngineMetadata, ta_free_engine_metadata false m = none) ∧
    (∀ l, ta_free_instruction_metadata_array false l = none) ∧
    (∀ l, ta_free_named_value_array false l = none) ∧
    (∀ l, ta_free_evidence_array false l = none) :=
  ⟨rfl, fun _ _ _ => rfl, rfl, fun _ => rfl, fun _ => rfl,
   fun _ => rfl, fun _ => rfl, fun _ => rfl⟩

/-- C5 counterexample: `demo-add` is declared INFALLIBLE, yet
`ta_execute("demo-add", [], …)` returns `ERROR_MISSING_PARAMETER`, a non-OK
result. -/
theorem C5_counterexample :
    (ta_execute true "demo-add" [] false).map (fun o => o.result.code) =
      some .errorMissingParameter ∧
    TaResultCode.errorMissingParameter ≠ .ok := by
  decide

/-- C5 (amended): the INFALLIBLE declaration notwithstanding, `ta_execute`
on `demo-add` returns non-OK results for invalid parameter lists; it returns
`OK` exactly on the well-formed calls — every parameter named "a" or "b"
with kind `INTEGER`, and both "a" and "b" supplied. -/
theorem C5_valid_params_ok (ps : List TaNamedValue) (bDryRun : Bool)
    (hgood : ∀ p ∈ ps, (p.szName = "a" ∨ p.szName = "b") ∧
      p.value.kind = .integer)
    (ha : ps.any (fun p => p.szName == "a") = true)
    (hb : ps.any (fun p => p.szName == "b") = true) :
    (ta_execute true "demo-add" ps bDryRun).map (fun o => o.result.code) =
      some .ok := by
  simp [ta_execute, scanParams_clean ps (find?_badParam_eq_none ps hgood),
        ha, hb]

/-- C5 witness: the amended statement at a concrete well-formed call. -/
theorem C5_valid_params_ok_witness :
    (ta_execute true "demo-add"
        [⟨"a", ⟨.integer, 1⟩⟩, ⟨"b", ⟨.integer, 2⟩⟩] false).map
      (fun o => o.result.code) = some .ok :=
  C5_valid_params_ok _ false (by decide) (by decide) (by decide)

/-- C6: every `ta_execute` call with an instruction id other than "demo-add"
returns `ERROR_INVALID_INSTRUCTION` with the reason string referencing
`demo-add`, and leaves the output and evidence out-parameters unwritten. -/
theorem C6_invalid_instruction (szInstructionId : String)
    (ps : List TaNamedValue) (bDryRun : Bool)
    (h : szInstructionId ≠ "demo-add") :
    ta_execute true szInstructionId ps bDryRun =
      some { result := { code := .errorInvalidInstruction,
                         szReason :=
                           some "This engine only supports `demo-add`." }
             outputs := none
             evidence := none } := by
  simp [ta_execute, h]

/-- C6 witness: `execute("demo-sub", …)`. -/
theorem C6_invalid_instruction_witness :
    ta_execute true "demo-sub" [] false =
      some { result := { code := .errorInvalidInstruction,
                         szReason :=
                           some "This engine only supports `demo-add`." }
             outputs := none
             evidence := none } :=
  C6_invalid_instruction "demo-sub" [] false (by decide)

/-- C7: for every completed call of the three fallible entry points, the
returned result's reason string is `NULL` if and only if its code is `OK`. -/
theorem C7_result_discipline (bLoggerRegistered : Bool)
    (szInstructionId : String) (ps : List TaNamedValue) (bDryRun : Bool)
    (o : ExecOut)
    (mr : TaResult × TaEngineMetadata × List (Option TaInstructionMetadata))
    (rr : TaResult)
    (h₁ : ta_execute bLoggerRegistered szInstructionId ps bDryRun = some o)
    (h₂ : ta_request_instructions bLoggerRegistered = some mr)
    (h₃ : ta_reset_state bLoggerRegistered = some rr) :
    (o.result.szReason = none ↔ o.result.code = .ok) ∧
    (mr.1.szReason = none ↔ mr.1.code = .ok) ∧
    (rr.szReason = none ↔ rr.code = .ok) := by
  refine ⟨(ta_execute_some_shape _ _ _ _ _ h₁).1, ?_, ?_⟩
  · cases bLoggerRegistered with
    | false => simp [ta_request_instructions] at h₂
    | true =>
      rw [ta_request_instructions] at h₂
      injection h₂ with h₂
      subst h₂
      simp
  · cases bLoggerRegistered with
    | false => simp [ta_reset_state] at h₃
    | true =>
      rw [ta_reset_state] at h₃
      injection h₃ with h₃
      subst h₃
      simp

/-- C7 witness: the discipline at a concrete error-returning `ta_execute`
call together with `ta_request_instructions` and `ta_reset_state`. -/
theorem C7_result_discipline_witness :
    (({ result := { code := .errorMissingParameter,
                    szReason := some "Parameter `a` was not supplied" }
        outputs := none, evidence := none } : ExecOut).result.szReason = none ↔
      ({ result := { code := .errorMissingParameter,
                     szReason := some "Parameter `a` was not supplied" }
         outputs := none, evidence := none } : ExecOut).result.code = .ok) ∧
    ((({ code := .ok, szReason := none }, demoEngineMetadata,
        [some demoAddMetadata, none]) :
        TaResult × TaEngineMetadata ×
          List (Option TaInstructionMetadata)).1.szReason = none ↔
      (({ code := .ok, szReason := none }, demoEngineMetadata,
        [some demoAddMetadata, none]) :
        TaResult × TaEngineMetadata ×
          List (Option TaInstructionMetadata)).1.code = .ok) ∧
    (({ code := .ok, szReason := none } : TaResult).szReason = none ↔
      ({ code := .ok, szReason := none } : TaResult).code = .ok) :=
  C7_result_discipline true "demo-add" [] false _ _ _ (by decide) rfl rfl

/-- C8: every pointer array the engine hands back — the instruction array
and its per-instruction parameter and output lists from
`ta_request_instructions`, and the output and evidence arrays of a
successful `ta_execute` — ends in a null sentinel with no null element
before it. -/
theorem C8_sentinel_arrays (bLoggerRegistered : Bool)
    (szInstructionId : String) (ps : List TaNamedValue) (bDryRun : Bool) :
    (∀ r md instrs,
        ta_request_instructions bLoggerRegistered = some (r, md, instrs) →
        nullTerminated instrs = true ∧
        ∀ m, some m ∈ instrs →
          nullTerminated m.arpParameterList = true ∧
          nullTerminated m.arpOutputList = true) ∧
    (∀ o, ta_execute bLoggerRegistered szInstructionId ps bDryRun = some o →
        (∀ l, o.outputs = some l → nullTerminated l = true) ∧
        (∀ l, o.evidence = some l → nullTerminated l = true)) := by
  constructor
  · intro r md instrs h
    cases bLoggerRegistered with
    | false => simp [ta_request_instructions] at h
    | true =>
      rw [ta_request_instructions] at h
      injection h with h
      rw [Prod.ext_iff] at h
      rw [Prod.ext_iff] at h
      obtain ⟨-, -, h⟩ := h
      subst h
      refine ⟨rfl, ?_⟩
      intro m hm
      have hmd : m = demoAddMetadata := by simpa using hm
      subst hmd
      exact ⟨rfl, rfl⟩
  · intro o h
    exact (ta_execute_some_shape _ _ _ _ _ h).2

/-- C8 witness: the sentinel property at a concrete successful execute call
and at `ta_request_instructions`. -/
theorem C8_sentinel_arrays_witness :
    nullTerminated [some demoAddMetadata,
      (none : Option TaInstructionMetadata)] = true ∧
    nullTerminated [some (⟨"result", ⟨.integer, 5⟩⟩ : TaNamedValue),
      none] = true :=
  ⟨((C8_sentinel_arrays true "demo-add"
        [⟨"a", ⟨.integer, 2⟩⟩, ⟨"b", ⟨.integer, 3⟩⟩] false).1
      { code := .ok, szReason := none } demoEngineMetadata
      [some demoAddMetadata, none] rfl).1,
   ((C8_sentinel_arrays true "demo-add"
        [⟨"a", ⟨.integer, 2⟩⟩, ⟨"b", ⟨.integer, 3⟩⟩] false).2
      { result := { code := .ok, szReason := none }
        outputs := some [some ⟨"result", ⟨.integer, 5⟩⟩, none]
        evidence := some [some ⟨"Sum", .textual, "2 + 3 = 5"⟩, none] }
      (by decide)).1 [some ⟨"result", ⟨.integer, 5⟩⟩, none] rfl⟩

/-- C9: the observable outcome of `ta_execute` does not depend on the
`dryRun` flag: two calls identical except for `dryRun` return equal results,
output arrays and evidence arrays.  The source discards the flag with
`(void)(bDryRun)`. -/
theorem C9_dry_run_irrelevant (bLoggerRegistered : Bool)
    (szInstructionId : String) (ps : List TaNamedValue) (d₁ d₂ : Bool) :
    ta_execute bLoggerRegistered szInstructionId ps d₁ =
      ta_execute bLoggerRegistered szInstructionId ps d₂ := rfl

/-- C10: when every parameter is named "a" or "b" with kind `INTEGER` and
both names occur (possibly several times), the call returns `OK` and the sum
uses, for each of "a" and "b", the payload of its LAST occurrence in array
order — later assignments overwrite earlier ones and duplicates are not
rejected. -/
theorem C10_last_occurrence_wins (ps : List TaNamedValue) (bDryRun : Bool)
    (hgood : ∀ p ∈ ps, (p.szName = "a" ∨ p.szName = "b") ∧
      p.value.kind = .integer)
    (ha : ps.any (fun p => p.szName == "a") = true)
    (hb : ps.any (fun p => p.szName == "b") = true) :
    ta_execute true "demo-add" ps bDryRun =
      some { result := { code := .ok, szReason := none }
             outputs :=
               some [some ⟨"result", ⟨.integer,
                 wrap32 (lastPayload "a" ps 0 + lastPayload "b" ps 0)⟩⟩, none]
             evidence :=
               some [some ⟨"Sum", .textual,
                 sumEvidenceText (lastPayload "a" ps 0) (lastPayload "b" ps 0)
                   (wrap32 (lastPayload "a" ps 0 + lastPayload "b" ps 0))⟩,
                 none] } := by
  simp [ta_execute, scanParams_clean ps (find?_badParam_eq_none ps hgood),
        ha, hb]

/-- C10 witness: on [("a",1),("a",4),("b",3)] the last "a" wins: output 7,
evidence "4 + 3 = 7". -/
theorem C10_last_occurrence_wins_witness :
    ta_execute true "demo-add"
      [⟨"a", ⟨.integer, 1⟩⟩, ⟨"a", ⟨.integer, 4⟩⟩, ⟨"b", ⟨.integer, 3⟩⟩]
      false =
    some { result := { code := .ok, szReason := none }
           outputs := some [some ⟨"result", ⟨.integer, 7⟩⟩, none]
           evidence := some [some ⟨"Sum", .textual, "4 + 3 = 7"⟩, none] } :=
  (C10_last_occurrence_wins
      [⟨"a", ⟨.integer, 1⟩⟩, ⟨"a", ⟨.integer, 4⟩⟩, ⟨"b", ⟨.integer, 3⟩⟩]
      false (by decide) (by decide) (by decide)).trans (by decide)
